import Mathlib

/-!
Verification of the broker service core (`broker/service.go`) of the
emitter repository: a shallow embedding of the service lifecycle,
cluster-event handling, node naming, signal handling and broadcast
logic, together with theorems settling the specification claims.
-/

namespace Broker

/-- Modelled from the spec: the `SubscriptionEvent` record is defined
outside `broker/service.go`; per the spec it carries a topic pattern and
the originating node identity. `service.go` reads its `Node` field. -/
structure SubscriptionEvent where
  Topic : String
  Node : String
deriving Repr, DecidableEq

/-- Modelled from the spec: the topic-matching collaborator
(`SubscriptionTrie`, defined outside `broker/service.go`) is consumed
only through insertion and removal of entries keyed by
(topic, origin node); we model its observable contents as the list of
such entries. -/
abbrev SubscriptionTrie := List (String × String)

/-- Modelled from the spec: inserting an entry keyed by
(topic, origin node) into the topic-matching collaborator. -/
def SubscriptionTrie.insertEntry (t : SubscriptionTrie) (topic node : String) :
    SubscriptionTrie :=
  if (topic, node) ∈ t then t else (topic, node) :: t

/-- An opaque gossip payload, as handed to `encoding.Decode`.  It either
decodes into a `SubscriptionEvent`, or decoding fails; on failure the Go
destination variable keeps whatever (zero or partially written) residual
value the decoder left, which we carry explicitly. -/
inductive Payload where
  | wellFormed (ev : SubscriptionEvent)
  | malformed (residual : SubscriptionEvent)
deriving Repr, DecidableEq

/-- The result of `encoding.Decode` on a payload. -/
def Payload.decode : Payload → Except String SubscriptionEvent
  | .wellFormed ev => .ok ev
  | .malformed _ => .error "decode failure"

/-- The value held by the destination variable after `encoding.Decode`
ran with its error return discarded, exactly as `Service.onEvent` does:
`var event SubscriptionEvent; encoding.Decode(e.Payload, &event)`. -/
def Payload.decoded : Payload → SubscriptionEvent
  | .wellFormed ev => ev
  | .malformed residual => residual

/-- A serf user event as consumed by `Service.onEvent`: a short name and
an opaque payload. -/
structure UserEvent where
  Name : String
  Payload : Payload
deriving Repr, DecidableEq

/-- The observable state of the `Service` relevant to event handling:
the recorded node name (`Service.name`) and the subscription-matching
trie (`Service.subscriptions`). -/
structure ServiceState where
  name : String
  subscriptions : SubscriptionTrie
deriving Repr, DecidableEq

/-- `Service.Name` returns the recorded local service name. -/
def ServiceState.Name (s : ServiceState) : String :=
  s.name

/-- The observable outcome of one `Service.onEvent` call: the events
passed to `fmt.Printf`, the returned error (if any), and the resulting
subscription trie. -/
structure EventOutcome where
  printed : List SubscriptionEvent
  error : Option String
  trie : SubscriptionTrie
deriving Repr, DecidableEq

/-- Shallow embedding of `Service.onEvent` (service.go:232-257).
For names `"+"` and `"-"` it decodes the payload, discarding the decode
error, and — when the decoded origin differs from the local name — only
prints the event (`fmt.Printf`); it never touches the subscription trie.
Any other name yields the "received unknown event name" error. -/
def onEvent (s : ServiceState) (e : UserEvent) : EventOutcome :=
  if e.Name = "+" then
    let event := e.Payload.decoded
    if event.Node ≠ s.Name then
      { printed := [event], error := none, trie := s.subscriptions }
    else
      { printed := [], error := none, trie := s.subscriptions }
  else if e.Name = "-" then
    let event := e.Payload.decoded
    if event.Node ≠ s.Name then
      { printed := [event], error := none, trie := s.subscriptions }
    else
      { printed := [], error := none, trie := s.subscriptions }
  else
    { printed := [], error := some ("received unknown event name: " ++ e.Name),
      trie := s.subscriptions }

/-- A serf event arriving on the service's event channel: either a user
event or some other membership event (join, leave, ...). -/
inductive SerfEvent where
  | user (e : UserEvent)
  | member
deriving Repr, DecidableEq

/-- Shallow embedding of `Service.clusterEventLoop` (service.go:126-140)
over the finite sequence of events delivered before the closing signal:
each user event is handed to `onEvent`; a returned error is logged via
`logging.LogError` and the loop continues with the next event.  Returns
the logged error messages and the final service state. -/
def clusterEventLoop (s : ServiceState) : List SerfEvent → List String × ServiceState
  | [] => ([], s)
  | .user e :: rest =>
    let out := onEvent s e
    let s' : ServiceState := { s with subscriptions := out.trie }
    let next := clusterEventLoop s' rest
    (match out.error with
     | some msg => msg :: next.1
     | none => next.1, next.2)
  | .member :: rest => clusterEventLoop s rest

/-- The state of a Go channel with respect to `close`: closing an
already-closed channel panics at runtime. -/
inductive ChanState where
  | opened
  | closed
deriving Repr, DecidableEq

/-- The externally visible steps taken by `Service.Close`. -/
inductive CloseAction where
  | flushLogs
  | clusterLeave
  | clusterShutdown
  | closeClosing
deriving Repr, DecidableEq

/-- Shallow embedding of `Service.Close` (service.go:283-294): flush the
logs, then — when a cluster handle exists — leave the cluster and shut
the membership transport down, then unconditionally `close(s.Closing)`.
Returns the trace of completed steps and either the new channel state or
the Go panic message raised by closing an already-closed channel. -/
def CloseRun (hasCluster : Bool) (ch : ChanState) :
    List CloseAction × Except String ChanState :=
  let pre := [CloseAction.flushLogs] ++
    (if hasCluster then [CloseAction.clusterLeave, CloseAction.clusterShutdown] else [])
  match ch with
  | .opened => (pre ++ [CloseAction.closeClosing], .ok .closed)
  | .closed => (pre, .error "close of closed channel")

/-- The cluster block of the service configuration
(`config.Config.Cluster`); in Go it is a pointer, so it is optional. -/
structure ClusterConfig where
  NodeName : String
  Gossip : Nat
  Route : Nat
  Seed : String
  SnapshotPath : String
  AdvertiseAddr : String
  Key : List Nat
deriving Repr, DecidableEq

/-- The service configuration (`config.Config`): the client-facing TCP
port and the optional cluster block. -/
structure Config where
  TCPPort : Nat
  Cluster : Option ClusterConfig
deriving Repr, DecidableEq

/-- Go semantics of reading a field through the `Cluster` pointer: a nil
pointer dereference panics the goroutine. -/
def derefCluster : Option ClusterConfig → Except String ClusterConfig
  | some c => .ok c
  | none => .error "runtime error: invalid memory address or nil pointer dereference"

/-- The externally visible steps taken by `Service.Listen`. -/
inductive ListenStep where
  | hookSignals
  | serfCreate
  | startEventLoop
  | servePeerRoute (port : Nat)
  | joinSeed (seed : String)
  | startMemberReporter
  | openClientListener (port : Nat)
  | serve
deriving Repr, DecidableEq

/-- Shallow embedding of `Service.Listen` (service.go:143-191) as the
trace of steps it performs.  The cluster block guards transport
creation, the event loop and the peer-route listener (line 148), but
line 161 `s.Join(s.Config.Cluster.Seed)` sits outside that guard and
dereferences the cluster pointer unconditionally.  External
collaborators (serf.Create, the listeners) are modelled as succeeding;
the second component is the panic message when the goroutine dies. -/
def Listen (cfg : Config) : List ListenStep × Option String :=
  let steps := [ListenStep.hookSignals] ++
    (match cfg.Cluster with
     | some c => [ListenStep.serfCreate, ListenStep.startEventLoop,
                  ListenStep.servePeerRoute c.Route]
     | none => [])
  match derefCluster cfg.Cluster with
  | .error panicMsg => (steps, some panicMsg)
  | .ok c =>
    (steps ++ [ListenStep.joinSeed c.Seed, ListenStep.startMemberReporter,
               ListenStep.openClientListener cfg.TCPPort, ListenStep.serve], none)

/-- The serf/memberlist configuration fields set by
`Service.clusterConfig` (service.go:92-118). -/
structure SerfConfig where
  RejoinAfterLeave : Bool
  NodeName : String
  SnapshotPath : String
  BindPort : Nat
  AdvertisePort : Nat
  SecretKey : List Nat
  AdvertiseAddr : String
  routeTag : String
deriving Repr, DecidableEq

/-- Shallow embedding of `Service.clusterConfig` (service.go:92-118).
`fingerprint` stands for `address.Fingerprint()`, `external` for
`address.External().String()` and `defaultAdvertiseAddr` for the
advertise address of `memberlist.DefaultWANConfig()` (external
collaborators).  The node name is the configured one, or — when that is
empty — `fmt.Sprintf("%s%d", address.Fingerprint(), cfg.Cluster.Gossip)`,
and it is recorded into `s.name`.  Returns the built configuration and
the updated service state. -/
def clusterConfig (fingerprint external defaultAdvertiseAddr : String)
    (st : ServiceState) (cfg : ClusterConfig) : SerfConfig × ServiceState :=
  let name := if cfg.NodeName = "" then fingerprint ++ toString cfg.Gossip
              else cfg.NodeName
  let advertiseAddr := if cfg.AdvertiseAddr = "public" then external
                       else defaultAdvertiseAddr
  ({ RejoinAfterLeave := true
     NodeName := name
     SnapshotPath := cfg.SnapshotPath
     BindPort := cfg.Gossip
     AdvertisePort := cfg.Gossip
     SecretKey := cfg.Key
     AdvertiseAddr := advertiseAddr
     routeTag := advertiseAddr ++ ":" ++ toString cfg.Route },
   { st with name := name })

/-- An OS-level signal delivered to `Service.OnSignal`; `other n`
stands for any signal other than SIGINT and SIGTERM (for example SIGHUP,
numbered 1). -/
inductive OsSignal where
  | sigint
  | sigterm
  | other (n : Nat)
deriving Repr, DecidableEq

/-- The externally visible actions `Service.OnSignal` can take. -/
inductive SigAction where
  | logExiting
  | closeService
  | exitZero
deriving Repr, DecidableEq

/-- Shallow embedding of `Service.OnSignal` (service.go:271-280): SIGTERM
falls through to the SIGINT case, which logs, calls `Close` and exits
with status 0; every other signal matches no case of the switch. -/
def OnSignal : OsSignal → List SigAction
  | .sigterm => [.logExiting, .closeService, .exitZero]
  | .sigint => [.logExiting, .closeService, .exitZero]
  | .other _ => []

/-- A message handed to `Service.Broadcast`, as seen through
`encoding.Encode`: it either encodes to a byte buffer or encoding fails
with an error. -/
inductive Message where
  | encodable (buffer : List Nat)
  | unencodable (errMsg : String)
deriving Repr, DecidableEq

/-- The result of `encoding.Encode` on a message. -/
def encode : Message → Except String (List Nat)
  | .encodable buffer => .ok buffer
  | .unencodable errMsg => .error errMsg

/-- One invocation of the membership transport's user-event primitive
`serf.UserEvent(name, payload, coalesce)`. -/
structure UserEventCall where
  name : String
  payload : List Nat
  coalesce : Bool
deriving Repr, DecidableEq

/-- Shallow embedding of `Service.Broadcast` (service.go:203-210):
encode the message; on failure return the encoding error without
touching the transport, otherwise call `s.cluster.UserEvent(name,
buffer, true)` and return its result.  `transport` models the cluster
handle's user-event primitive; the first component lists the transport
invocations made. -/
def Broadcast (transport : UserEventCall → Option String)
    (name : String) (msg : Message) : List UserEventCall × Option String :=
  match encode msg with
  | .error err => ([], some err)
  | .ok buffer =>
    let call : UserEventCall := { name := name, payload := buffer, coalesce := true }
    ([call], transport call)

/-! ### Claim theorems -/

/-- C1: the claim says that applying a received `"+"` event with a
foreign origin inserts an entry keyed by (topic, origin node) into the
subscription-matching structure.  The code only prints the event:
evaluating `onEvent` on node B at the Scenario A payload
`{"+", "chat/room1", nodeA}` leaves the subscription trie empty — the
entry for topic `chat/room1` owned by `nodeA` is never inserted. -/
theorem C1_scenarioA_not_inserted :
    onEvent { name := "nodeB", subscriptions := [] }
      { Name := "+",
        Payload := Payload.wellFormed { Topic := "chat/room1", Node := "nodeA" } } =
      { printed := [{ Topic := "chat/room1", Node := "nodeA" }],
        error := none, trie := [] } := by
  decide

/-- C2: the claim says a second `Close` never panics and never
double-closes the closing channel.  The code closes `s.Closing`
unconditionally, so the first `Close` closes the channel and the second
one panics with Go's "close of closed channel". -/
theorem C2_second_close_panics :
    (CloseRun false ChanState.opened).2 = Except.ok ChanState.closed ∧
    (CloseRun false ChanState.closed).2 = Except.error "close of closed channel" ∧
    (CloseRun true ChanState.closed).2 = Except.error "close of closed channel" :=
  ⟨rfl, rfl, rfl⟩

/-- C3: the claim says that with an absent cluster block `Listen` skips
the clustering steps and still opens the client-facing listener and
serves.  Line 161 dereferences `s.Config.Cluster.Seed` outside the nil
guard, so with `Cluster = none` the trace stops right after hooking the
signals with a nil-pointer panic: no client listener is opened and
nothing is served. -/
theorem C3_nil_cluster_listen_panics :
    Listen { TCPPort := 8080, Cluster := none } =
      ([ListenStep.hookSignals],
       some "runtime error: invalid memory address or nil pointer dereference") :=
  rfl

/-- C4: the claim says a `"+"`/`"-"` event whose payload fails to decode
is dropped and the decoding failure reported.  The code discards the
error returned by `encoding.Decode`: on a malformed payload `onEvent`
returns no error at all (nothing is reported), and the residual decoded
record even reaches the origin check and gets printed. -/
theorem C4_decode_failure_unreported :
    Payload.decode (Payload.malformed { Topic := "", Node := "" }) =
      Except.error "decode failure" ∧
    onEvent { name := "nodeB", subscriptions := [] }
      { Name := "+", Payload := Payload.malformed { Topic := "", Node := "" } } =
      { printed := [{ Topic := "", Node := "" }], error := none, trie := [] } :=
  ⟨rfl, by decide⟩

/-- C5: an event whose name is neither `"+"` nor `"-"` makes `onEvent`
return the explicit "received unknown event name" error, leaves the
subscription trie unchanged, and the cluster event loop merely logs that
error and processes the subsequent events exactly as it would have
without the unknown event. -/
theorem C5_unknown_event_logged_loop_continues
    (s : ServiceState) (e : UserEvent) (rest : List SerfEvent)
    (h1 : e.Name ≠ "+") (h2 : e.Name ≠ "-") :
    (onEvent s e).error = some ("received unknown event name: " ++ e.Name) ∧
    (onEvent s e).trie = s.subscriptions ∧
    clusterEventLoop s (SerfEvent.user e :: rest) =
      (("received unknown event name: " ++ e.Name) :: (clusterEventLoop s rest).1,
       (clusterEventLoop s rest).2) := by
  refine ⟨?_, ?_, ?_⟩ <;> simp [clusterEventLoop, onEvent, h1, h2]

/-- Witness for C5 at a concrete unknown event name `"?"`. -/
theorem C5_witness :
    ("?" : String) ≠ "+" ∧ ("?" : String) ≠ "-" ∧
    ((onEvent { name := "n", subscriptions := [] }
        { Name := "?", Payload := Payload.wellFormed { Topic := "t", Node := "o" } }).error =
      some ("received unknown event name: " ++ "?") ∧
    (onEvent { name := "n", subscriptions := [] }
        { Name := "?", Payload := Payload.wellFormed { Topic := "t", Node := "o" } }).trie =
      ([] : SubscriptionTrie) ∧
    clusterEventLoop { name := "n", subscriptions := [] }
        (SerfEvent.user { Name := "?", Payload := Payload.wellFormed { Topic := "t", Node := "o" } } ::
          [SerfEvent.member]) =
      (("received unknown event name: " ++ "?") ::
        (clusterEventLoop { name := "n", subscriptions := [] } [SerfEvent.member]).1,
       (clusterEventLoop { name := "n", subscriptions := [] } [SerfEvent.member]).2)) :=
  ⟨by decide, by decide,
   C5_unknown_event_logged_loop_continues { name := "n", subscriptions := [] }
     { Name := "?", Payload := Payload.wellFormed { Topic := "t", Node := "o" } }
     [SerfEvent.member] (by decide) (by decide)⟩

/-- C6: a cluster event whose decoded origin node equals the local node
identity (`Service.Name`) never modifies the subscription trie and is
not even printed — it is discarded, regardless of its content. -/
theorem C6_self_origin_discarded (s : ServiceState) (e : UserEvent)
    (h : e.Payload.decoded.Node = s.Name) :
    (onEvent s e).trie = s.subscriptions ∧ (onEvent s e).printed = [] := by
  have hNode : ¬e.Payload.decoded.Node ≠ s.Name := by simp [h]
  by_cases h1 : e.Name = "+"
  · constructor <;> simp [onEvent, h1, hNode]
  · by_cases h2 : e.Name = "-"
    · constructor <;> simp [onEvent, h1, h2, hNode]
    · constructor <;> simp [onEvent, h1, h2]

/-- Witness for C6: a `"+"` event carrying the local node's own name as
origin is discarded. -/
theorem C6_witness :
    (Payload.wellFormed { Topic := "t", Node := "nodeA" } : Payload).decoded.Node =
      ({ name := "nodeA", subscriptions := [("x", "y")] } : ServiceState).Name ∧
    ((onEvent { name := "nodeA", subscriptions := [("x", "y")] }
        { Name := "+", Payload := Payload.wellFormed { Topic := "t", Node := "nodeA" } }).trie =
      [("x", "y")] ∧
    (onEvent { name := "nodeA", subscriptions := [("x", "y")] }
        { Name := "+", Payload := Payload.wellFormed { Topic := "t", Node := "nodeA" } }).printed =
      []) :=
  ⟨rfl,
   C6_self_origin_discarded { name := "nodeA", subscriptions := [("x", "y")] }
     { Name := "+", Payload := Payload.wellFormed { Topic := "t", Node := "nodeA" } } rfl⟩

/-- C7: `Close` performs its steps in a fixed order — flushing logs
first, then (when a cluster handle exists) leaving the cluster before
shutting the membership transport down, and closing the `Closing`
channel last. -/
theorem C7_close_order (hasCluster : Bool) :
    ((CloseRun hasCluster ChanState.opened).1).head? = some CloseAction.flushLogs ∧
    ((CloseRun hasCluster ChanState.opened).1).getLast? = some CloseAction.closeClosing ∧
    (hasCluster = true →
      (CloseRun hasCluster ChanState.opened).1 =
        [CloseAction.flushLogs, CloseAction.clusterLeave,
         CloseAction.clusterShutdown, CloseAction.closeClosing]) := by
  cases hasCluster <;> refine ⟨rfl, rfl, ?_⟩ <;> intro h
  · exact absurd h (by decide)
  · decide

/-- Witness for C7 with a cluster handle present. -/
theorem C7_witness :
    (CloseRun true ChanState.opened).1 =
      [CloseAction.flushLogs, CloseAction.clusterLeave,
       CloseAction.clusterShutdown, CloseAction.closeClosing] :=
  (C7_close_order true).2.2 rfl

/-- C8: `clusterConfig` synthesizes the node name as the address
fingerprint concatenated with the gossip port when no explicit name is
configured, records it so that `Name` returns it; a configured name is
used verbatim. -/
theorem C8_node_name (fingerprint external defaultAdvertiseAddr : String)
    (st : ServiceState) (cfg : ClusterConfig) :
    (cfg.NodeName = "" →
      (clusterConfig fingerprint external defaultAdvertiseAddr st cfg).1.NodeName =
        fingerprint ++ toString cfg.Gossip ∧
      ((clusterConfig fingerprint external defaultAdvertiseAddr st cfg).2).Name =
        fingerprint ++ toString cfg.Gossip) ∧
    (cfg.NodeName ≠ "" →
      (clusterConfig fingerprint external defaultAdvertiseAddr st cfg).1.NodeName =
        cfg.NodeName ∧
      ((clusterConfig fingerprint external defaultAdvertiseAddr st cfg).2).Name =
        cfg.NodeName) := by
  constructor <;> intro h <;>
    simp [clusterConfig, ServiceState.Name, h]

/-- Witness for C8: with no configured name, fingerprint "fp" and gossip
port 4000, the synthesized and recorded name is "fp4000". -/
theorem C8_witness :
    ("" : String) = "" ∧
    ((clusterConfig "fp" "1.2.3.4" "" { name := "", subscriptions := [] }
        { NodeName := "", Gossip := 4000, Route := 4001, Seed := "",
          SnapshotPath := "", AdvertiseAddr := "", Key := [] }).1.NodeName =
      "fp" ++ toString 4000 ∧
    ((clusterConfig "fp" "1.2.3.4" "" { name := "", subscriptions := [] }
        { NodeName := "", Gossip := 4000, Route := 4001, Seed := "",
          SnapshotPath := "", AdvertiseAddr := "", Key := [] }).2).Name =
      "fp" ++ toString 4000) :=
  ⟨rfl,
   (C8_node_name "fp" "1.2.3.4" "" { name := "", subscriptions := [] }
     { NodeName := "", Gossip := 4000, Route := 4001, Seed := "",
       SnapshotPath := "", AdvertiseAddr := "", Key := [] }).1 rfl⟩

/-- C9: `OnSignal` is a no-op for every OS signal other than SIGINT and
SIGTERM: no log entry, no call to `Close`, no process exit. -/
theorem C9_other_signals_noop (sig : OsSignal)
    (h1 : sig ≠ OsSignal.sigint) (h2 : sig ≠ OsSignal.sigterm) :
    OnSignal sig = [] := by
  cases sig with
  | sigint => exact absurd rfl h1
  | sigterm => exact absurd rfl h2
  | other n => rfl

/-- Witness for C9 at SIGHUP (signal number 1). -/
theorem C9_witness :
    OsSignal.other 1 ≠ OsSignal.sigint ∧ OsSignal.other 1 ≠ OsSignal.sigterm ∧
    OnSignal (OsSignal.other 1) = [] :=
  ⟨by decide, by decide,
   C9_other_signals_noop (OsSignal.other 1) (by decide) (by decide)⟩

/-- C10: every transport invocation made by `Broadcast` carries the
constant coalesce flag `true`, and when encoding the message fails,
`Broadcast` returns the encoding error having made no transport
invocation at all. -/
theorem C10_broadcast_coalesce_encode_error
    (transport : UserEventCall → Option String) (name : String) (msg : Message) :
    (∀ call ∈ (Broadcast transport name msg).1, call.coalesce = true) ∧
    (∀ errMsg, encode msg = Except.error errMsg →
      Broadcast transport name msg = ([], some errMsg)) := by
  cases msg with
  | encodable buffer =>
    refine ⟨?_, ?_⟩
    · intro call hc
      simp [Broadcast, encode] at hc
      simp [hc]
    · intro errMsg h
      simp [encode] at h
  | unencodable errMsg0 =>
    refine ⟨?_, ?_⟩
    · intro call hc
      simp [Broadcast, encode] at hc
    · intro errMsg h
      simp [encode] at h
      simp [Broadcast, encode, h]

/-- Witness for C10: a failing encode returns the error with no
transport call, and the call made for an encodable message has the
coalesce flag set. -/
theorem C10_witness :
    Broadcast (fun _ => none) "+" (Message.unencodable "encode failed") =
      ([], some "encode failed") ∧
    ({ name := "+", payload := [1, 2], coalesce := true } : UserEventCall).coalesce = true :=
  ⟨(C10_broadcast_coalesce_encode_error (fun _ => none) "+"
      (Message.unencodable "encode failed")).2 "encode failed" rfl,
   (C10_broadcast_coalesce_encode_error (fun _ => none) "+"
      (Message.encodable [1, 2])).1
     { name := "+", payload := [1, 2], coalesce := true }
     (by simp [Broadcast, encode])⟩

end Broker
